import Mathlib

/-!
Shallow embedding of the orchestration core of the bubbleAI conversational
assistant (autonomous agent handler, chat hook) together with proofs of the
specification's testable properties.

Strings are modelled as `List Char` so that every operation is executable and
kernel-reducible.  The tag-detection logic of `runAutonomousAgent`
(src/agents/autonomous/handler.ts, lines 281-325) uses JavaScript `RegExp`
matching; the regexes involved are all of the shape
`open(.*?)close` (leftmost match, lazy group, `.` not matching line
terminators), plus one pattern with a `deep\s+` cue and the `i` flag, so the
relevant fragment of JavaScript regex semantics is embedded directly.
-/

namespace Bubble

abbrev Str := List Char

/-- Concatenation of a list of strings (JS `+=` over a stream of chunks). -/
def strConcat (l : List Str) : Str := l.foldr (fun a b => a ++ b) []

/-- JS `Array.prototype.join('\n')`. -/
def joinLines (l : List Str) : Str := strConcat (l.intersperse ['\n'])

/-- JS regex `.` (no `s` flag): any character except a line terminator. -/
def isDotChar (c : Char) : Bool :=
  !(c == '\n' || c == '\r' || c == '\u2028' || c == '\u2029')

/-- JS regex `\s` (the whitespace class used by `\s+` and `trim`); the
Unicode space separators are included by code point. -/
def isJsSpace (c : Char) : Bool :=
  c == ' ' || c == '\t' || c == '\n' || c == '\r' || c == '\x0b' || c == '\x0c' ||
  c == '\u00a0' || c == '\ufeff' || c == '\u2028' || c == '\u2029' ||
  (0x2000 <= c.toNat && c.toNat <= 0x200a) || c == '\u1680' || c == '\u202f' ||
  c == '\u205f' || c == '\u3000'

/-- Character comparison, optionally case-insensitive (JS `i` flag). -/
def charEqCI (ci : Bool) (a b : Char) : Bool :=
  if ci then a.toLower == b.toLower else a == b

/-- Does `s` start with the literal `pat` (optionally case-insensitively)? -/
def startsWithCI (ci : Bool) : Str → Str → Bool
  | [], _ => true
  | _ :: _, [] => false
  | p :: ps, c :: cs => charEqCI ci p c && startsWithCI ci ps cs

/-- The lazy group `(.*?)` followed by the literal `close`, anchored at the
start of `s`: returns the shortest prefix of `s` made of `.`-matchable
characters whose immediate continuation starts with `close`. -/
def lazyGroupTo (ci : Bool) (close : Str) : Str → Option Str
  | [] => if startsWithCI ci close [] then some [] else none
  | c :: cs =>
    if startsWithCI ci close (c :: cs) then some []
    else if isDotChar c then (lazyGroupTo ci close cs).map (fun g => c :: g)
    else none

/-- JS `text.match(/open(.*?)close/)`: scan left to right for the first
position where the whole pattern matches, and return the captured group. -/
def firstTagMatch (ci : Bool) (opn close : Str) : Str → Option Str
  | [] => none
  | c :: cs =>
    match (if startsWithCI ci opn (c :: cs)
           then lazyGroupTo ci close ((c :: cs).drop opn.length)
           else none) with
    | some g => some g
    | none => firstTagMatch ci opn close cs

/-- Length of the maximal leading run of `\s` characters (greedy `\s+`). -/
def leadingSpaceRun : Str → Nat
  | [] => 0
  | c :: cs => if isJsSpace c then leadingSpaceRun cs + 1 else 0

/-- The pattern `<SEARCH>deep\s+(.*?)<\/SEARCH>` with the `i` flag, anchored
at the start of `s`.  Since the first `"</SEARCH>"` after the whitespace run
starts with a non-whitespace character, the greedy `\s+` followed by the lazy
group is the match the backtracking JS engine produces. -/
def matchDeepCuedAt (s : Str) : Option Str :=
  if startsWithCI true ("<SEARCH>deep".toList) s then
    let rest := s.drop 12
    let w := leadingSpaceRun rest
    if w == 0 then none
    else lazyGroupTo true ("</SEARCH>".toList) (rest.drop w)
  else none

/-- JS `text.match(/<SEARCH>deep\s+(.*?)<\/SEARCH>/i)`: leftmost occurrence. -/
def firstDeepCuedMatch : Str → Option Str
  | [] => none
  | c :: cs =>
    match matchDeepCuedAt (c :: cs) with
    | some g => some g
    | none => firstDeepCuedMatch cs

/-- JS `text.match(/pat/) !== null` for a literal pattern (used for the bare
`<THINK>` marker test). -/
def containsSub (pat : Str) : Str → Bool
  | [] => startsWithCI false pat []
  | c :: cs => startsWithCI false pat (c :: cs) || containsSub pat cs

/-- JS `String.prototype.trim`. -/
def jsTrim (s : Str) : Str :=
  ((s.dropWhile isJsSpace).reverse.dropWhile isJsSpace).reverse

/-- The routing actions of `BubbleSemanticRouter` (`RouterAction`). -/
inductive ActionKind where
  | SIMPLE | SEARCH | DEEP_SEARCH | THINK | IMAGE | PROJECT | CANVAS | STUDY
deriving DecidableEq

/-- `generatedThisLoop.match(/<SEARCH>(.*?)<\/SEARCH>/)` (handler.ts:281). -/
def searchMatch (g : Str) : Option Str :=
  firstTagMatch false ("<SEARCH>".toList) ("</SEARCH>".toList) g

/-- `match(/<DEEP>(.*?)<\/DEEP>/) || match(/<SEARCH>deep\s+(.*?)<\/SEARCH>/i)`
(handler.ts:282). -/
def deepMatch (g : Str) : Option Str :=
  match firstTagMatch false ("<DEEP>".toList) ("</DEEP>".toList) g with
  | some p => some p
  | none => firstDeepCuedMatch g

/-- `match(/<THINK>(.*?)<\/THINK>/)` (first disjunct of handler.ts:283). -/
def thinkFullMatch (g : Str) : Option Str :=
  firstTagMatch false ("<THINK>".toList) ("</THINK>".toList) g

/-- `match(/<THINK>/)` (second disjunct of handler.ts:283). -/
def thinkBare (g : Str) : Bool := containsSub ("<THINK>".toList) g

def imageMatch (g : Str) : Option Str :=
  firstTagMatch false ("<IMAGE>".toList) ("</IMAGE>".toList) g

def projectMatch (g : Str) : Option Str :=
  firstTagMatch false ("<PROJECT>".toList) ("</PROJECT>".toList) g

def canvasMatch (g : Str) : Option Str :=
  firstTagMatch false ("<CANVAS>".toList) ("</CANVAS>".toList) g

def studyMatch (g : Str) : Option Str :=
  firstTagMatch false ("<STUDY>".toList) ("</STUDY>".toList) g

/-- The payload handed to THINK (handler.ts:302):
`thinkMatch[1] ? thinkMatch[1].trim() : prompt`, where `thinkMatch` is the
full-tag match if it succeeded, otherwise the bare-marker match (whose group 1
is `undefined`); an empty captured group is falsy in JS and also falls back to
the original prompt. -/
def thinkPayload (g orig : Str) : Option Str :=
  match thinkFullMatch g with
  | some p => some (if p = [] then orig else jsTrim p)
  | none => if thinkBare g then some orig else none

/-- The tag-detection block of the SIMPLE handler (handler.ts:281-325): at most
one actionable tag is extracted from the text generated in this loop
iteration, with the fixed precedence deep, search, think, image, project,
canvas, study; `orig` is the turn's original user prompt. -/
def extractTag (g orig : Str) : Option (ActionKind × Str) :=
  match deepMatch g with
  | some p => some (.DEEP_SEARCH, p)
  | none =>
    match searchMatch g with
    | some p => some (.SEARCH, p)
    | none =>
      match thinkPayload g orig with
      | some p => some (.THINK, p)
      | none =>
        match imageMatch g with
        | some p => some (.IMAGE, p)
        | none =>
          match projectMatch g with
          | some p => some (.PROJECT, p)
          | none =>
            match canvasMatch g with
            | some p => some (.CANVAS, p)
            | none =>
              match studyMatch g with
              | some p => some (.STUDY, p)
              | none => none

/-! ## The routing loop of `runAutonomousAgent` (handler.ts:19-343)

Each executor case of the `switch` performs backend calls (generation
streams, deep research, image generation) whose behaviour is supplied by an
`ExecEnv` environment record, one per loop iteration; everything the handler
itself computes (text accumulation, tag detection, re-routing, the loop
bound, the outer catch) is embedded from the source.  The grounding-metadata
side channel carries no control flow and is omitted. -/

/-- Behaviour of the external backends during one executor invocation. -/
structure ExecEnv where
  /-- Text chunks yielded by a streaming generation call, in receipt order. -/
  chunks : List Str := []
  /-- When `some e`, the backend call of this invocation throws `e`
  (propagating out of the executor to the outer catch). -/
  throws : Option Str := none
  /-- `researchService.deepResearch` result (`answer`, `sources`). -/
  researchAnswer : Str := []
  researchSources : List Str := []
  /-- `generateImage` outcome: `some base64` on success, `none` when it
  throws (caught by the handler's inner try), with `imageErr` its message. -/
  imageResult : Option Str := none
  imageErr : Str := []
  /-- `response.text` of the non-streaming PROJECT call. -/
  projectText : Str := []
deriving DecidableEq

/-- The message object built by every `return` of the handler:
`{ project_id, chat_id, sender: 'ai', text: finalResponseText, ... }`
(ids and grounding metadata omitted; `image` records `image_base64`
presence, `memoryDirective` the `memoryToCreate` metadata of handler.ts:328). -/
structure AiMessage where
  text : Str
  image : Bool
  memoryDirective : Bool
deriving DecidableEq

/-- Outcome of one executor invocation (one `switch` dispatch of the body of
`while (loopCount < MAX_LOOPS)`). -/
inductive StepOutcome where
  /-- The case returned a terminal result. -/
  | terminal (m : AiMessage)
  /-- The SIMPLE case detected a tag: `currentAction`/`currentPrompt` are
  updated, `finalResponseText` becomes `acc`, and the loop continues. -/
  | reroute (a : ActionKind) (p : Str) (acc : Str)
  /-- A backend call threw; the exception propagates to the outer catch. -/
  | failure (e : Str)
deriving DecidableEq

/-- `\n\n(Image generation failed: msg)` (handler.ts:153). -/
def imageFailMsg (e : Str) : Str :=
  ("\n\n(Image generation failed: ".toList) ++ e ++ (")".toList)

/-- The fixed wrapper text of the PROJECT case (handler.ts:208). -/
def projectMsg (t : Str) : Str :=
  ("\nI've designed the project structure based on your request.\n\n".toList)
  ++ t ++
  ("\n\n(Switch to Co-Creator mode to fully hydrate and edit these files.)".toList)

/-- The `**Sources:**` block of the DEEP_SEARCH case (handler.ts:89). -/
def researchText (env : ExecEnv) : Str :=
  env.researchAnswer ++ ("\n\n**Sources:**\n".toList) ++ joinLines env.researchSources

/-- One executor invocation: the `switch (currentAction)` body of
handler.ts:50-333, for action `a`, active prompt `p`, accumulated response
text `acc` and original user prompt `orig`. -/
def execStep (env : ExecEnv) (a : ActionKind) (p acc orig : Str) : StepOutcome :=
  match env.throws with
  | some e => .failure e
  | none =>
    match a with
    | .SEARCH => .terminal ⟨acc ++ strConcat env.chunks, false, false⟩
    | .DEEP_SEARCH =>
      .terminal ⟨acc ++ ("\n\n".toList) ++ researchText env, false, false⟩
    | .THINK => .terminal ⟨acc ++ strConcat env.chunks, false, false⟩
    | .IMAGE =>
      match env.imageResult with
      | some _ => .terminal ⟨acc, true, false⟩
      | none => .terminal ⟨acc ++ imageFailMsg env.imageErr, false, false⟩
    | .PROJECT => .terminal ⟨acc ++ projectMsg env.projectText, false, false⟩
    | .CANVAS => .terminal ⟨acc ++ strConcat env.chunks, false, false⟩
    | .STUDY => .terminal ⟨acc ++ strConcat env.chunks, false, false⟩
    | .SIMPLE =>
      match extractTag (strConcat env.chunks) orig with
      | some (k, pl) => .reroute k pl (acc ++ strConcat env.chunks)
      | none =>
        .terminal ⟨acc ++ strConcat env.chunks, false,
          decide ((strConcat env.chunks).length > 50)⟩

/-- `const MAX_LOOPS = 2` (handler.ts:45). -/
def MAX_LOOPS : Nat := 2

/-- Result of a whole turn: either a message or a propagating exception
(which the outer catch of `runAutonomousAgent` then converts). -/
inductive TurnOutcome where
  | ok (m : AiMessage)
  | err (e : Str)
deriving DecidableEq

/-- The `while (loopCount < MAX_LOOPS)` loop (handler.ts:47-336), with
`fuel = MAX_LOOPS - loopCount` and one `ExecEnv` per iteration; also counts
the executor invocations performed.  When fuel is exhausted the
fall-through `return` of handler.ts:336 yields the accumulated text. -/
def runLoop (orig : Str) : Nat → List ExecEnv → ActionKind → Str → Str → TurnOutcome × Nat
  | 0, _, _, _, acc => (.ok ⟨acc, false, false⟩, 0)
  | fuel + 1, envs, a, p, acc =>
    match execStep (envs.headD {}) a p acc orig with
    | .terminal m => (.ok m, 1)
    | .failure e => (.err e, 1)
    | .reroute a2 p2 acc2 =>
      let r := runLoop orig fuel envs.tail a2 p2 acc2
      (r.1, r.2 + 1)

/-- Modelled from the spec: `getUserFriendlyError` (imported from
`../errorUtils`, a module not among the provided sources); per the spec it
only derives a user-facing message from the thrown failure, so it is
modelled as the failure's own message text. -/
def getUserFriendlyError (e : Str) : Str := e

/-- `runAutonomousAgent` (handler.ts:19-343): requests the initial route
`a0` from the classifier, runs the routing loop starting from
`finalResponseText = ''`, and converts any escaped exception into the
`An error occurred: ...` terminal message (handler.ts:338-342).  Returns the
message of the single-element `messages` array together with the number of
executor invocations performed. -/
def runAutonomousAgent (prompt : Str) (envs : List ExecEnv) (a0 : ActionKind) :
    AiMessage × Nat :=
  match runLoop prompt MAX_LOOPS envs a0 prompt [] with
  | (.ok m, n) => (m, n)
  | (.err e, n) =>
    (⟨("An error occurred: ".toList) ++ getUserFriendlyError e, false, false⟩, n)

/-! ## The chat hook `useChat` (src/unnamed/part_001)

`handleSendMessage`, the background `fetchMessages` merge and the
single-flight latch `isSendingRef`.  React state (`messages`, `isLoading`)
and the latch ref are gathered in `HookState`; the backends (persistence,
the agent, file reading, `Date.now()`) are supplied by a `SendEnv` record.
The fire-and-forget background calls (`saveMemory`, `extractAndSaveMemory`)
are logged-and-swallowed side channels with no effect on hook state and are
omitted; timestamp fields (`created_at`) and attachment payloads are omitted
as they carry no control flow. -/

/-- A chat message row (the `Message` type of `../types`). -/
structure Message where
  id : Str
  chat_id : Str
  project_id : Str
  sender : Str
  text : Str
  plan : Option Str := none
deriving DecidableEq

/-- The smart merge inside the `fetchMessages` effect (part_001:110-133):
`history` is the fetched persisted history of chat `chatId`, `prev` the
currently displayed list. -/
def mergeFetchedHistory (chatId : Str) (history prev : List Message) :
    List Message :=
  let optimisticMessages := prev.filter (fun p =>
    p.chat_id = chatId ∧ ¬ history.any (fun h => h.id == p.id))
  if optimisticMessages.length > 0 then history ++ optimisticMessages
  else history

/-- The merge C8 describes, written from the spec's words alone (history
first, then every previously held record whose id has no counterpart in the
fetched history), for comparison with `mergeFetchedHistory`. -/
def specMergeFetchedHistory (history prev : List Message) : List Message :=
  history ++ prev.filter (fun p => ¬ history.any (fun h => h.id == p.id))

/-- One message object produced by the agent (`AgentExecutionResult`
messages are rows without an id; `addMessage` assigns one on save). -/
structure AgentMsgContent where
  project_id : Str
  chat_id : Str
  sender : Str
  text : Str
deriving DecidableEq

/-- `AgentExecutionResult` of `../agents/types`. -/
structure AgentExecutionResult where
  messages : List AgentMsgContent
  updatedPlan : Option (Str × Str) := none
deriving DecidableEq

/-- `{ messages: [] }`. -/
def emptySendResult : AgentExecutionResult := ⟨[], none⟩

instance {ε α : Type} [DecidableEq ε] [DecidableEq α] :
    DecidableEq (Except ε α) := fun x y =>
  match x, y with
  | .ok a, .ok b =>
    if h : a = b then .isTrue (by rw [h]) else .isFalse (by simp [h])
  | .error a, .error b =>
    if h : a = b then .isTrue (by rw [h]) else .isFalse (by simp [h])
  | .ok _, .error _ => .isFalse (by simp)
  | .error _, .ok _ => .isFalse (by simp)

/-- A chunk delivered to `onStreamChunk` (part_001:255-270): either plain
text or a JSON control event with `type: 'image_generation_start'` (the
discrimination the callback performs by attempting `JSON.parse`). -/
inductive StreamChunk where
  | text (s : Str)
  | imageStart
deriving DecidableEq

/-- Behaviour of the environment during one `handleSendMessage` call. -/
structure SendEnv where
  /-- `Date.now()` at turn start (suffix of the placeholder ids). -/
  now : Str := []
  /-- `Date.now()` at fallback-record creation (suffix of failed-save ids). -/
  now2 : Str := []
  /-- Whether reading the attached files to base64 succeeds (part_001:216-225). -/
  fileReadOk : Bool := true
  /-- `addMessage` for the user message: the persisted row, or `none` when
  the call throws (caught inline, part_001:246-251). -/
  userSaveResult : Option Message := none
  /-- Chunks the agent hands to `onStreamChunk`, in order. -/
  chunks : List StreamChunk := []
  /-- `runAgent` outcome: a result, or a thrown failure. -/
  agentResult : Except Str AgentExecutionResult := .ok emptySendResult
  /-- Per agent message, the `addMessage` outcome: `some dbId` for the
  persisted row's id, `none` when the call throws (part_001:307-324). -/
  aiSaveResults : List (Option Str) := []
  /-- `updateMessagePlan` outcome: `none` success, `some e` throws `e`. -/
  planSaveResult : Option Str := none
deriving DecidableEq

/-- Inputs of one `handleSendMessage` call. -/
structure SendInput where
  text : Str
  hasFiles : Bool := false
  chat_id : Str
  project_id : Str
  /-- `supabase`, `user`, `chatToUse` and `geminiApiKey` all non-null. -/
  ctxOk : Bool := true
deriving DecidableEq

/-- The hook's mutable state: the `isSendingRef` latch and the React state
the claims are about. -/
structure HookState where
  isSending : Bool
  messages : List Message
  isLoading : Bool
deriving DecidableEq

/-- Observable actions of one `handleSendMessage` call, in program order. -/
inductive SendEvent where
  /-- `isSendingRef.current = true` (part_001:203). -/
  | latchAcquired
  /-- `addMessage` for the user message (part_001:242). -/
  | persistUserAttempt
  /-- `runAgent` (part_001:275). -/
  | agentInvoked
  /-- `addMessage` for one AI message (part_001:308). -/
  | persistAiAttempt
  /-- `updateMessagePlan` (part_001:358). -/
  | persistPlanAttempt
  /-- `addToast` with a user-facing message. -/
  | warnToast (msg : Str)
  /-- The `finally` block's `setTimeout(() => isSendingRef.current = false, 500)`:
  the latch release is scheduled `delayMs` milliseconds after everything
  else settled (part_001:380-386). -/
  | releaseScheduled (delayMs : Nat)
deriving DecidableEq

/-- `(!text.trim() && (!files || files.length === 0)) || !supabase || !user
|| !chatToUse || !geminiApiKey` negated (the guard of part_001:197). -/
def validSendInput (inp : SendInput) : Bool :=
  (!(jsTrim inp.text).isEmpty || inp.hasFiles) && inp.ctxOk

/-- JS `a || b` on strings (empty string is falsy), as used for
`messageContent.text || currentText` (part_001:304). -/
def jsOrStr (a b : Str) : Str := if a = [] then b else a

/-- The value of `currentText` once the stream has finished: the
concatenation of the plain-text chunks (control events are not appended,
part_001:255-270). -/
def sendCurrentText (env : SendEnv) : Str :=
  strConcat (env.chunks.filterMap (fun c =>
    match c with
    | .text t => some t
    | .imageStart => none))

/-- `"Failed to read the attached file(s)."` (part_001:221). -/
def fileReadToast : Str := "Failed to read the attached file(s).".toList

/-- `"Failed to save AI response to history, but here it is."` (part_001:323). -/
def failedSaveToast : Str :=
  "Failed to save AI response to history, but here it is.".toList

/-- The catch block's replacement text (part_001:375). -/
def errTurnText (e : Str) : Str :=
  ("⚠️ Error: ".toList) ++ e ++ (". Please try again.".toList)

/-- Saving one AI message (part_001:307-324): success yields the persisted
row; a thrown save is converted into the local `failed-save-` record, with a
warning toast (the returned Bool). -/
def mkSavedAi (inp : SendInput) (currentText now2 : Str)
    (c : AgentMsgContent) (save : Option Str) : Message × Bool :=
  match save with
  | some dbId =>
    ({ id := dbId, chat_id := c.chat_id, project_id := inp.project_id,
       sender := c.sender, text := jsOrStr c.text currentText }, false)
  | none =>
    ({ id := ("failed-save-".toList) ++ now2, chat_id := inp.chat_id,
       project_id := inp.project_id, sender := "ai".toList,
       text := jsOrStr c.text currentText }, true)

/-- The `for (const messageContent of agentMessages)` save loop
(part_001:292-325), producing `savedAiMessages` and the emitted events. -/
def processAiSaves (inp : SendInput) (currentText now2 : Str) :
    List AgentMsgContent → List (Option Str) → List Message × List SendEvent
  | [], _ => ([], [])
  | c :: cs, saves =>
    let r := mkSavedAi inp currentText now2 c (saves.headD none)
    let rest := processAiSaves inp currentText now2 cs saves.tail
    (r.1 :: rest.1,
     .persistAiAttempt ::
       ((if r.2 then [.warnToast failedSaveToast] else []) ++ rest.2))

/-- The final `setMessages` reconciliation (part_001:332-356): splice the
saved AI messages over the assistant placeholder; when the placeholder is
gone, filter-and-append (returning early, before the plan rewrite). -/
def reconcileFinal (prev : List Message) (tempId : Str)
    (savedAi : List Message) (updatedPlan : Option (Str × Str)) :
    List Message :=
  match prev.findIdx? (fun m => m.id == tempId) with
  | some i =>
    let newMessages := prev.take i ++ savedAi ++ prev.drop (i + 1)
    match updatedPlan with
    | some mp =>
      newMessages.map (fun m =>
        if m.id = mp.1 then { m with plan := some mp.2 } else m)
    | none => newMessages
  | none => prev.filter (fun m => m.id ≠ tempId) ++ savedAi

/-- `handleSendMessage` (part_001:196-387): returns the call's result, the
hook state when the call settles (the latch still held — its release is the
deferred timer recorded as the trailing `releaseScheduled` event, executed
by `releaseLatch`), and the observable event trace. -/
def handleSendMessage (env : SendEnv) (inp : SendInput) (s : HookState) :
    AgentExecutionResult × HookState × List SendEvent :=
  if !(validSendInput inp) then (emptySendResult, s, [])
  else if s.isSending then (emptySendResult, s, [])
  else
    let tempId := ("temp-ai-".toList) ++ env.now
    let tempUserId := ("temp-user-".toList) ++ env.now
    if inp.hasFiles && !env.fileReadOk then
      -- file read failed: toast and early latch release, before any
      -- optimistic insert; the finally block still runs
      (emptySendResult, { s with isSending := false, isLoading := false },
       [.latchAcquired, .warnToast fileReadToast, .releaseScheduled 500])
    else
      let optimisticUser : Message :=
        { id := tempUserId, chat_id := inp.chat_id,
          project_id := inp.project_id, sender := "user".toList,
          text := inp.text }
      let tempAi : Message :=
        { id := tempId, chat_id := inp.chat_id, project_id := inp.project_id,
          sender := "ai".toList, text := [] }
      let m1 : List Message := s.messages ++ [optimisticUser, tempAi]
      let m2 : List Message := match env.userSaveResult with
        | some saved => m1.map (fun m => if m.id = tempUserId then saved else m)
        | none => m1
      let currentText := sendCurrentText env
      let m3 : List Message := m2.map (fun m =>
        if m.id = tempId then { m with text := currentText } else m)
      match env.agentResult with
      | .error e =>
        -- the outer catch: toast, placeholder converted to an error message
        (emptySendResult,
         { isSending := true, isLoading := false,
           messages := m3.map (fun m =>
             if m.id = tempId
             then { m with text := errTurnText e, sender := "ai".toList }
             else m) },
         [.latchAcquired, .persistUserAttempt, .agentInvoked, .warnToast e,
          .releaseScheduled 500])
      | .ok ar =>
        let pa := processAiSaves inp currentText env.now2
          ar.messages env.aiSaveResults
        let m4 := reconcileFinal m3 tempId pa.1 ar.updatedPlan
        match ar.updatedPlan, env.planSaveResult with
        | some _, some e =>
          -- updateMessagePlan threw, handled by the same outer catch
          (emptySendResult,
           { isSending := true, isLoading := false,
             messages := m4.map (fun m =>
               if m.id = tempId
               then { m with text := errTurnText e, sender := "ai".toList }
               else m) },
           [.latchAcquired, .persistUserAttempt, .agentInvoked] ++ pa.2 ++
           [.persistPlanAttempt, .warnToast e, .releaseScheduled 500])
        | some _, none =>
          (ar, { isSending := true, isLoading := false, messages := m4 },
           [.latchAcquired, .persistUserAttempt, .agentInvoked] ++ pa.2 ++
           [.persistPlanAttempt, .releaseScheduled 500])
        | none, _ =>
          (ar, { isSending := true, isLoading := false, messages := m4 },
           [.latchAcquired, .persistUserAttempt, .agentInvoked] ++ pa.2 ++
           [.releaseScheduled 500])

/-- The deferred timer callback of the finally block (part_001:383-385):
`isSendingRef.current = false`. -/
def releaseLatch (s : HookState) : HookState := { s with isSending := false }

/-! ## Helper lemmas -/

theorem extractTag_nil (orig : Str) : extractTag [] orig = none := rfl

theorem extractTag_some_ne_nil {g orig : Str} {x : ActionKind × Str}
    (h : extractTag g orig = some x) : g ≠ [] := by
  intro hg
  subst hg
  rw [extractTag_nil] at h
  exact Option.noConfusion h

theorem ne_append_of_ne_nil {acc g : Str} (h : g ≠ []) : acc ≠ acc ++ g := by
  intro he
  have hlen : acc.length = (acc ++ g).length := congrArg List.length he
  rw [List.length_append] at hlen
  have hg : g.length = 0 := by omega
  exact h (List.length_eq_zero.mp hg)

theorem contig_extend_right {l m r : Str} (h : l <:+: m) : l <:+: m ++ r := by
  obtain ⟨s, t, hst⟩ := h
  exact ⟨s, t ++ r, by rw [← hst]; simp⟩

theorem execStep_terminal_extends {env : ExecEnv} {a : ActionKind}
    {p acc orig : Str} {m : AiMessage}
    (h : execStep env a p acc orig = .terminal m) : acc <+: m.text := by
  unfold execStep at h
  split at h
  · simp at h
  · split at h <;>
      first
        | (injection h with h2; subst h2; exact ⟨_, rfl⟩)
        | (injection h with h2; subst h2;
           exact ⟨_, (List.append_assoc _ _ _).symm⟩)
        | (split at h <;>
            first
              | (injection h with h2; subst h2; exact ⟨_, rfl⟩)
              | (injection h with h2; subst h2;
                 exact ⟨[], List.append_nil _⟩)
              | simp at h)

theorem execStep_reroute_eq {env : ExecEnv} {a : ActionKind}
    {p acc orig : Str} {a2 : ActionKind} {p2 acc2 : Str}
    (h : execStep env a p acc orig = .reroute a2 p2 acc2) :
    acc2 = acc ++ strConcat env.chunks ∧
    extractTag (strConcat env.chunks) orig = some (a2, p2) := by
  unfold execStep at h
  split at h
  · simp at h
  · split at h <;>
      first
        | (split at h <;>
            first
              | (rename_i k pl heq
                 injection h with ha hp hacc
                 subst ha; subst hp; subst hacc
                 exact ⟨rfl, heq⟩)
              | simp at h)
        | simp at h

theorem execStep_no_throw_ne_failure {env : ExecEnv} {a : ActionKind}
    {p acc orig e : Str} (hthrow : env.throws = none) :
    execStep env a p acc orig ≠ .failure e := by
  intro h
  unfold execStep at h
  split at h
  · rename_i e2 heq
    rw [hthrow] at heq
    exact Option.noConfusion heq
  · split at h <;> first | (split at h <;> simp at h) | simp at h

theorem runLoop_count_le (orig : Str) (fuel : Nat) :
    ∀ (envs : List ExecEnv) (a : ActionKind) (p acc : Str),
    (runLoop orig fuel envs a p acc).2 ≤ fuel := by
  induction fuel with
  | zero => intro envs a p acc; simp [runLoop]
  | succ n ih =>
    intro envs a p acc
    simp only [runLoop]
    split
    · simp
    · simp
    · simpa using ih envs.tail _ _ _

theorem runLoop_succ_reroute {orig : Str} {fuel : Nat} {envs : List ExecEnv}
    {a : ActionKind} {p acc : Str} {a2 : ActionKind} {p2 acc2 : Str}
    (h : execStep (envs.headD {}) a p acc orig = .reroute a2 p2 acc2) :
    runLoop orig (fuel + 1) envs a p acc
      = ((runLoop orig fuel envs.tail a2 p2 acc2).1,
         (runLoop orig fuel envs.tail a2 p2 acc2).2 + 1) := by
  simp only [runLoop]
  rw [h]

theorem runLoop_one_ok {env : ExecEnv} (orig : Str) (a : ActionKind)
    (p acc : Str) (hthrow : env.throws = none) :
    ∃ m n, runLoop orig 1 [env] a p acc = (.ok m, n) ∧ acc <+: m.text := by
  simp only [runLoop, List.headD]
  cases hstep : execStep env a p acc orig with
  | terminal m => exact ⟨m, 1, rfl, execStep_terminal_extends hstep⟩
  | failure e => exact absurd hstep (execStep_no_throw_ne_failure hthrow)
  | reroute a2 p2 acc2 =>
    refine ⟨⟨acc2, false, false⟩, 1, rfl, ?_⟩
    obtain ⟨h1, h2⟩ := execStep_reroute_eq hstep
    subst h1
    exact ⟨_, rfl⟩

/-! ## The claims -/

/-- Claim C1: for every turn, regardless of how many times the SIMPLE
handler detects a tag and requests a re-route, the routing loop terminates
after at most `MAX_LOOPS = 2` executor invocations; and when the bound is
reached without a terminal result (loop fuel exhausted), the turn ends with
a message carrying exactly the text accumulated so far. -/
theorem C1_loop_bound :
    MAX_LOOPS = 2 ∧
    (∀ (prompt : Str) (envs : List ExecEnv) (a0 : ActionKind),
      (runAutonomousAgent prompt envs a0).2 ≤ MAX_LOOPS) ∧
    (∀ (orig : Str) (envs : List ExecEnv) (a : ActionKind) (p acc : Str),
      runLoop orig 0 envs a p acc = (.ok ⟨acc, false, false⟩, 0)) := by
  refine ⟨rfl, ?_, ?_⟩
  · intro prompt envs a0
    have h := runLoop_count_le prompt MAX_LOOPS envs a0 prompt []
    unfold runAutonomousAgent
    split
    · rename_i n heq
      rw [heq] at h
      exact h
    · rename_i n heq
      rw [heq] at h
      exact h
  · intro orig envs a p acc
    rfl

/-- Claim C2: in a text where the plain `<DEEP>` marker is absent, the
deep-cued search regex matches (a search marker whose payload begins with
the `deep` cue, payload the remainder after the cue) and a plain search
marker also matches, tag extraction yields `DEEP_SEARCH` with the deep-cued
payload — never `SEARCH` — because the deep-research-style matches are
checked before the plain search match. -/
theorem C2_deep_beats_search (g orig p q : Str)
    (hdeeptag : firstTagMatch false ("<DEEP>".toList) ("</DEEP>".toList) g = none)
    (hdeep : firstDeepCuedMatch g = some p)
    (hsearch : searchMatch g = some q) :
    extractTag g orig = some (.DEEP_SEARCH, p) := by
  unfold extractTag deepMatch
  rw [hdeeptag, hdeep]

/-- Witness for C2 at a concrete text holding both a deep-cued search marker
and a separate plain search marker. -/
theorem C2_witness :
    extractTag ("hi <SEARCH>cats</SEARCH> ok <SEARCH>deep quantum computing</SEARCH>".toList)
      ("o".toList)
      = some (.DEEP_SEARCH, "quantum computing".toList) :=
  C2_deep_beats_search _ _ _ ("cats".toList) (by decide) (by decide) (by decide)

/-- Claim C3 (counterexample): an executor failure in the second iteration
is caught, but the terminal text is NOT the error message appended to the
accumulated text — the accumulated text (`"sure <SEARCH>q</SEARCH>"` from
the first iteration) is discarded entirely and does not even occur in the
returned message. -/
theorem C3_counterexample :
    runAutonomousAgent ("hi".toList)
      [{ chunks := ["sure <SEARCH>q</SEARCH>".toList] },
       { throws := some ("boom".toList) }] .SIMPLE
      = (⟨"An error occurred: boom".toList, false, false⟩, 2) ∧
    ¬ (("sure <SEARCH>q</SEARCH>".toList : Str)
        <:+: ("An error occurred: boom".toList : Str)) := by
  constructor
  · decide
  · decide

/-- Claim C3 (amended): any failure thrown inside an action executor is
caught at the loop boundary and the turn returns a terminal result whose
text is exactly `An error occurred: ` followed by the user-facing message —
the previously accumulated text is not included; the failing invocation is
never retried (the invocation count stays within the loop bound) and no
exception escapes `runAutonomousAgent` (it always returns a message). -/
theorem C3_amended (prompt : Str) (envs : List ExecEnv) (a0 : ActionKind)
    (e : Str) (n : Nat)
    (h : runLoop prompt MAX_LOOPS envs a0 prompt [] = (.err e, n)) :
    runAutonomousAgent prompt envs a0
      = (⟨("An error occurred: ".toList) ++ getUserFriendlyError e,
          false, false⟩, n) ∧
    n ≤ MAX_LOOPS := by
  constructor
  · unfold runAutonomousAgent
    rw [h]
  · have hle := runLoop_count_le prompt MAX_LOOPS envs a0 prompt []
    rw [h] at hle
    exact hle

/-- Witness for C3 (amended) at a concrete failing turn. -/
theorem C3_amended_witness :
    runAutonomousAgent ("compare them".toList)
      [{ chunks := ["on it <SEARCH>versions</SEARCH>".toList] },
       { throws := some ("quota exceeded".toList) }] .SIMPLE
      = (⟨("An error occurred: ".toList)
            ++ getUserFriendlyError ("quota exceeded".toList),
          false, false⟩, 2) ∧
    2 ≤ MAX_LOOPS :=
  C3_amended ("compare them".toList) _ .SIMPLE ("quota exceeded".toList) 2
    (by decide)

/-- Claim C6: within one turn the accumulated response text is append-only
across loop iterations: whenever an iteration re-routes (so that an
iteration k+1 exists), the accumulated text entering iteration k is a
strict prefix of the accumulated text entering iteration k+1, and every
terminal result extends (never truncates or rewrites) the accumulated
text. -/
theorem C6_append_only :
    (∀ (env : ExecEnv) (a : ActionKind) (p acc orig : Str)
       (a2 : ActionKind) (p2 acc2 : Str),
      execStep env a p acc orig = .reroute a2 p2 acc2 →
      acc <+: acc2 ∧ acc ≠ acc2) ∧
    (∀ (env : ExecEnv) (a : ActionKind) (p acc orig : Str) (m : AiMessage),
      execStep env a p acc orig = .terminal m → acc <+: m.text) := by
  constructor
  · intro env a p acc orig a2 p2 acc2 h
    obtain ⟨h1, h2⟩ := execStep_reroute_eq h
    subst h1
    exact ⟨⟨_, rfl⟩, ne_append_of_ne_nil (extractTag_some_ne_nil h2)⟩
  · intro env a p acc orig m h
    exact execStep_terminal_extends h

/-- Witness for C6 at a concrete re-routing iteration. -/
theorem C6_witness :
    ("x ".toList : Str) <+: ("x let me think <THINK>".toList : Str) ∧
    ("x ".toList : Str) ≠ ("x let me think <THINK>".toList : Str) :=
  C6_append_only.1 { chunks := ["let me think <THINK>".toList] } .SIMPLE
    ("q".toList) ("x ".toList) ("q".toList) .THINK ("q".toList)
    ("x let me think <THINK>".toList) (by decide)

/-- Claim C9: when no deep or search marker matches, a reasoning marker with
no closing tag (so the full-tag match fails, the bare marker matches) makes
tag extraction yield THINK with payload the turn's original user prompt;
and when a non-empty payload is captured inside a closed reasoning marker it
is trimmed before use. -/
theorem C9_think_fallback (g orig : Str)
    (hdeep : deepMatch g = none) (hsearch : searchMatch g = none) :
    (thinkFullMatch g = none → thinkBare g = true →
      extractTag g orig = some (.THINK, orig)) ∧
    (∀ p, thinkFullMatch g = some p → p ≠ [] →
      extractTag g orig = some (.THINK, jsTrim p)) := by
  constructor
  · intro hfull hbare
    simp [extractTag, hdeep, hsearch, thinkPayload, hfull, hbare]
  · intro p hfull hp
    simp [extractTag, hdeep, hsearch, thinkPayload, hfull, hp]

/-- Witness for C9: an unterminated bare `<THINK>` falls back to the
original user prompt. -/
theorem C9_witness :
    extractTag ("hmm, tricky <THINK>".toList) ("what is 2+2?".toList)
      = some (.THINK, "what is 2+2?".toList) :=
  (C9_think_fallback ("hmm, tricky <THINK>".toList) ("what is 2+2?".toList)
    (by decide) (by decide)).1 (by decide) (by decide)

/-- Claim C10: when the SIMPLE handler detects a control tag and re-routes,
the accumulated text after the re-route is exactly the previous text plus
the entire generated text — the raw tag markup is not removed — and, for a
follow-up executor that does not throw, every contiguous piece of the
re-routed accumulated text (in particular the literal tag markup) still
occurs in the terminal result's persisted message text. -/
theorem C10_tags_kept (prompt : Str) (env1 env2 : ExecEnv)
    (a2 : ActionKind) (p2 acc2 : Str)
    (h1 : execStep env1 .SIMPLE prompt [] prompt = .reroute a2 p2 acc2)
    (h2 : env2.throws = none) :
    acc2 = strConcat env1.chunks ∧
    ∀ tag : Str, tag <:+: acc2 →
      tag <:+: (runAutonomousAgent prompt [env1, env2] .SIMPLE).1.text := by
  obtain ⟨hacc, _⟩ := execStep_reroute_eq h1
  constructor
  · simpa using hacc
  · intro tag htag
    obtain ⟨m, n, hrun, hpre⟩ := runLoop_one_ok prompt a2 p2 acc2 h2
    have hstep : runLoop prompt 2 [env1, env2] .SIMPLE prompt []
        = ((runLoop prompt 1 [env2] a2 p2 acc2).1,
           (runLoop prompt 1 [env2] a2 p2 acc2).2 + 1) :=
      runLoop_succ_reroute h1
    have hfull : runLoop prompt MAX_LOOPS [env1, env2] .SIMPLE prompt []
        = (.ok m, n + 1) := by
      show runLoop prompt 2 [env1, env2] .SIMPLE prompt [] = (.ok m, n + 1)
      rw [hstep, hrun]
    unfold runAutonomousAgent
    rw [hfull]
    obtain ⟨r, hr⟩ := hpre
    rw [← hr]
    exact contig_extend_right htag

/-- Witness for C10: the literal `<IMAGE>` markup survives into the terminal
message text of the re-routed turn. -/
theorem C10_witness :
    ("<IMAGE>a cute cat</IMAGE>".toList : Str) <:+:
      (runAutonomousAgent ("draw a cute cat".toList)
        [{ chunks := ["sure! <IMAGE>a cute cat</IMAGE>".toList] },
         { imageResult := some ("b64data".toList) }] .SIMPLE).1.text :=
  (C10_tags_kept ("draw a cute cat".toList)
    { chunks := ["sure! <IMAGE>a cute cat</IMAGE>".toList] }
    { imageResult := some ("b64data".toList) }
    .IMAGE ("a cute cat".toList) ("sure! <IMAGE>a cute cat</IMAGE>".toList)
    (by decide) (by decide)).2 _ (by decide)

/-! ## Helper lemmas for the chat hook -/

theorem sendGuard_rejects (env : SendEnv) (inp : SendInput) (s : HookState)
    (h : s.isSending = true) :
    handleSendMessage env inp s = (emptySendResult, s, []) := by
  unfold handleSendMessage
  rw [h]
  split <;> simp

theorem processAiSaves_mem {inp : SendInput} {currentText now2 : Str} :
    ∀ (ms : List AgentMsgContent) (saves : List (Option Str)) (ev : SendEvent),
      ev ∈ (processAiSaves inp currentText now2 ms saves).2 →
      ev = .persistAiAttempt ∨ ev = .warnToast failedSaveToast := by
  intro ms
  induction ms with
  | nil => intro saves ev h; simp [processAiSaves] at h
  | cons c cs ih =>
    intro saves ev h
    simp only [processAiSaves, List.mem_cons, List.mem_append] at h
    rcases h with h | h
    · exact Or.inl h
    rcases h with h | h
    · split at h
      · simp at h; exact Or.inr h
      · simp at h
    · exact ih saves.tail ev h

theorem mem_reconcileFinal (prev : List Message) (tempId : Str)
    (savedAi : List Message) (m : Message) (hm : m ∈ savedAi) :
    m ∈ reconcileFinal prev tempId savedAi none := by
  unfold reconcileFinal
  split <;> simp [hm]

/-- Normal form of a `handleSendMessage` call that passes the input guard,
finds the latch free and reads its files successfully: the latch is held in
the settled state, and the trace is the three leading events, then only
AI-persistence/toast/plan events, then the scheduled 500 ms latch release,
last. -/
theorem handleSend_run (env : SendEnv) (inp : SendInput) (s : HookState)
    (hs : s.isSending = false) (hv : validSendInput inp = true)
    (hf : (inp.hasFiles && !env.fileReadOk) = false) :
    ∃ mid : List SendEvent,
      (handleSendMessage env inp s).2.1.isSending = true ∧
      (handleSendMessage env inp s).2.2
        = [.latchAcquired, .persistUserAttempt, .agentInvoked] ++ mid
          ++ [.releaseScheduled 500] ∧
      ∀ ev ∈ mid, ev = .persistAiAttempt ∨ (∃ msg, ev = .warnToast msg) ∨
        ev = .persistPlanAttempt := by
  cases hag : env.agentResult with
  | error e =>
    refine ⟨[.warnToast e], ?_, ?_, ?_⟩
    · simp [handleSendMessage, hs, hv, hf, hag]
    · simp [handleSendMessage, hs, hv, hf, hag]
    · intro ev hev
      simp at hev
      exact Or.inr (Or.inl ⟨e, hev⟩)
  | ok ar =>
    cases har : ar.updatedPlan with
    | none =>
      refine ⟨(processAiSaves inp (sendCurrentText env) env.now2
          ar.messages env.aiSaveResults).2, ?_, ?_, ?_⟩
      · simp [handleSendMessage, hs, hv, hf, hag, har]
      · simp [handleSendMessage, hs, hv, hf, hag, har]
      · intro ev hev
        rcases processAiSaves_mem _ _ _ hev with h | h
        · exact Or.inl h
        · exact Or.inr (Or.inl ⟨_, h⟩)
    | some pl =>
      cases hpl : env.planSaveResult with
      | none =>
        refine ⟨(processAiSaves inp (sendCurrentText env) env.now2
            ar.messages env.aiSaveResults).2 ++ [.persistPlanAttempt],
            ?_, ?_, ?_⟩
        · simp [handleSendMessage, hs, hv, hf, hag, har, hpl]
        · simp [handleSendMessage, hs, hv, hf, hag, har, hpl]
        · intro ev hev
          rw [List.mem_append] at hev
          rcases hev with hev | hev
          · rcases processAiSaves_mem _ _ _ hev with h | h
            · exact Or.inl h
            · exact Or.inr (Or.inl ⟨_, h⟩)
          · simp at hev
            exact Or.inr (Or.inr hev)
      | some e2 =>
        refine ⟨(processAiSaves inp (sendCurrentText env) env.now2
            ar.messages env.aiSaveResults).2
            ++ [.persistPlanAttempt, .warnToast e2], ?_, ?_, ?_⟩
        · simp [handleSendMessage, hs, hv, hf, hag, har, hpl]
        · simp [handleSendMessage, hs, hv, hf, hag, har, hpl]
        · intro ev hev
          rw [List.mem_append] at hev
          rcases hev with hev | hev
          · rcases processAiSaves_mem _ _ _ hev with h | h
            · exact Or.inl h
            · exact Or.inr (Or.inl ⟨_, h⟩)
          · simp at hev
            rcases hev with hev | hev
            · exact Or.inr (Or.inr hev)
            · exact Or.inr (Or.inl ⟨_, hev⟩)

/-- Claim C4: while a send is in flight the latch rejects a second
`handleSendMessage` call with the empty result and no state change; a call
that does run holds the latch through the whole turn, invokes the agent
exactly once, schedules the latch release (with the 500 ms cooldown) as the
very last step — after the persistence attempts — and any second call
issued before that release (on any conversation) returns empty with no
state change, so exactly one turn executes. -/
theorem C4_single_flight (env : SendEnv) (inp : SendInput) (s : HookState) :
    (s.isSending = true →
      handleSendMessage env inp s = (emptySendResult, s, [])) ∧
    (s.isSending = false → validSendInput inp = true →
      (inp.hasFiles && !env.fileReadOk) = false →
      (handleSendMessage env inp s).2.1.isSending = true ∧
      (∃ mid : List SendEvent,
        (handleSendMessage env inp s).2.2
          = [.latchAcquired, .persistUserAttempt, .agentInvoked] ++ mid
            ++ [.releaseScheduled 500] ∧
        SendEvent.agentInvoked ∉ mid ∧
        ∀ d : Nat, SendEvent.releaseScheduled d ∉ mid) ∧
      ∀ (env2 : SendEnv) (inp2 : SendInput),
        handleSendMessage env2 inp2 (handleSendMessage env inp s).2.1
          = (emptySendResult, (handleSendMessage env inp s).2.1, [])) := by
  constructor
  · exact fun h => sendGuard_rejects env inp s h
  · intro hs hv hf
    obtain ⟨mid, hsend, htrace, hmem⟩ := handleSend_run env inp s hs hv hf
    refine ⟨hsend, ⟨mid, htrace, ?_, ?_⟩, ?_⟩
    · intro hmemA
      rcases hmem _ hmemA with h | ⟨msg, h⟩ | h <;> simp at h
    · intro d hmemd
      rcases hmem _ hmemd with h | ⟨msg, h⟩ | h <;> simp at h
    · intro env2 inp2
      exact sendGuard_rejects env2 inp2 _ hsend

/-- Witness for C4: a concrete first send holds the latch and a second,
immediately following send is rejected with no state change. -/
theorem C4_witness :
    (handleSendMessage { now := "7".toList }
      { text := "hello".toList, chat_id := "c1".toList,
        project_id := "p1".toList }
      ⟨false, [], false⟩).2.1.isSending = true ∧
    handleSendMessage {}
      { text := "again".toList, chat_id := "c1".toList,
        project_id := "p1".toList }
      (handleSendMessage { now := "7".toList }
        { text := "hello".toList, chat_id := "c1".toList,
          project_id := "p1".toList } ⟨false, [], false⟩).2.1
      = (emptySendResult,
         (handleSendMessage { now := "7".toList }
           { text := "hello".toList, chat_id := "c1".toList,
             project_id := "p1".toList } ⟨false, [], false⟩).2.1, []) := by
  have h := (C4_single_flight { now := "7".toList }
    { text := "hello".toList, chat_id := "c1".toList,
      project_id := "p1".toList } ⟨false, [], false⟩).2 rfl (by decide)
    (by decide)
  exact ⟨h.1, h.2.2 _ _⟩

/-- Claim C5 (counterexample): the latch is NOT keyed on conversation
identity: while a send on conversation `A` is in flight (latch held), a
send on the different conversation `B` is rejected — it returns the empty
result and performs no state change, contradicting the claim that it "is
not rejected by the latch and may proceed". -/
theorem C5_counterexample :
    (handleSendMessage { now := "1".toList }
      { text := "first".toList, chat_id := "A".toList,
        project_id := "P".toList } ⟨false, [], false⟩).2.1.isSending = true ∧
    ("A".toList : Str) ≠ ("B".toList : Str) ∧
    handleSendMessage { now := "2".toList }
      { text := "second".toList, chat_id := "B".toList,
        project_id := "P".toList }
      (handleSendMessage { now := "1".toList }
        { text := "first".toList, chat_id := "A".toList,
          project_id := "P".toList } ⟨false, [], false⟩).2.1
      = (emptySendResult,
         (handleSendMessage { now := "1".toList }
           { text := "first".toList, chat_id := "A".toList,
             project_id := "P".toList } ⟨false, [], false⟩).2.1, []) := by
  decide

/-- Claim C5 (amended): the single-flight latch is one boolean per hook
instance, not keyed on conversation identity: while any send is in flight,
a send on every conversation routed through the same hook — the same or a
different one — is rejected with the empty result and no state change until
the latch is released. -/
theorem C5_amended (env : SendEnv) (inp : SendInput) (s : HookState)
    (h : s.isSending = true) :
    handleSendMessage env inp s = (emptySendResult, s, []) :=
  sendGuard_rejects env inp s h

/-- Witness for C5 (amended) at a concrete held-latch state and a fresh
conversation. -/
theorem C5_amended_witness :
    handleSendMessage { now := "9".toList }
      { text := "other conversation".toList, chat_id := "Z".toList,
        project_id := "Q".toList } ⟨true, [], false⟩
      = (emptySendResult, ⟨true, [], false⟩, []) :=
  C5_amended _ _ _ rfl

/-- Claim C7: when saving the finalized assistant message throws, the
reconciled message list still contains an assistant message carrying the
full generated text (the agent's text, or the accumulated streamed text when
the agent's text is empty) under the freshly minted local `failed-save-` id,
the user-facing save-failure warning is issued, and the call still returns
the agent result normally (no exception escapes the turn controller). -/
theorem C7_failed_save (env : SendEnv) (inp : SendInput) (s : HookState)
    (c : AgentMsgContent)
    (hs : s.isSending = false) (hv : validSendInput inp = true)
    (hf : (inp.hasFiles && !env.fileReadOk) = false)
    (ha : env.agentResult = .ok ⟨[c], none⟩)
    (hsave : env.aiSaveResults = [none]) :
    (∃ m ∈ (handleSendMessage env inp s).2.1.messages,
      m.sender = "ai".toList ∧
      m.id = ("failed-save-".toList) ++ env.now2 ∧
      m.text = jsOrStr c.text (sendCurrentText env)) ∧
    SendEvent.warnToast failedSaveToast ∈ (handleSendMessage env inp s).2.2 ∧
    (handleSendMessage env inp s).1 = ⟨[c], none⟩ := by
  have hpa : processAiSaves inp (sendCurrentText env) env.now2 [c] [none]
      = ([{ id := ("failed-save-".toList) ++ env.now2, chat_id := inp.chat_id,
            project_id := inp.project_id, sender := "ai".toList,
            text := jsOrStr c.text (sendCurrentText env) }],
         [.persistAiAttempt, .warnToast failedSaveToast]) := by
    simp [processAiSaves, mkSavedAi]
  refine ⟨?_, ?_, ?_⟩
  · refine ⟨{ id := ("failed-save-".toList) ++ env.now2,
              chat_id := inp.chat_id, project_id := inp.project_id,
              sender := "ai".toList,
              text := jsOrStr c.text (sendCurrentText env) },
            ?_, rfl, rfl, rfl⟩
    simp only [handleSendMessage, hs, hv, hf, ha, hsave, hpa]
    simp only [Bool.not_true, Bool.false_eq_true, if_false]
    exact mem_reconcileFinal _ _ _ _ (by simp)
  · simp [handleSendMessage, hs, hv, hf, ha, hsave, hpa]
  · simp [handleSendMessage, hs, hv, hf, ha, hsave, hpa]

/-- Witness for C7 at a concrete failing persistence call. -/
theorem C7_witness :
    ∃ m ∈ (handleSendMessage
      { now := "10".toList, now2 := "11".toList,
        agentResult := .ok ⟨[⟨"P".toList, "A".toList, "ai".toList,
          "the answer".toList⟩], none⟩,
        aiSaveResults := [none] }
      { text := "a question".toList, chat_id := "A".toList,
        project_id := "P".toList }
      ⟨false, [], false⟩).2.1.messages,
      m.sender = "ai".toList ∧
      m.id = ("failed-save-".toList) ++ ("11".toList) ∧
      m.text = jsOrStr ("the answer".toList)
        (sendCurrentText
          { now := "10".toList, now2 := "11".toList,
            agentResult := .ok ⟨[⟨"P".toList, "A".toList, "ai".toList,
              "the answer".toList⟩], none⟩,
            aiSaveResults := [none] }) :=
  (C7_failed_save
    { now := "10".toList, now2 := "11".toList,
      agentResult := .ok ⟨[⟨"P".toList, "A".toList, "ai".toList,
        "the answer".toList⟩], none⟩,
      aiSaveResults := [none] }
    { text := "a question".toList, chat_id := "A".toList,
      project_id := "P".toList }
    ⟨false, [], false⟩
    ⟨"P".toList, "A".toList, "ai".toList, "the answer".toList⟩
    rfl (by decide) (by decide) rfl rfl).1

/-- Claim C8 (counterexample): a previously held record whose id has no
counterpart in the fetched history but whose `chat_id` differs from the
fetched conversation IS erased by the merge, so the result is not the
fetched history followed by exactly the id-unmatched previous records. -/
theorem C8_counterexample :
    mergeFetchedHistory ("A".toList) []
      [{ id := "m1".toList, chat_id := "B".toList, project_id := "P".toList,
         sender := "user".toList, text := "t".toList }] = [] ∧
    specMergeFetchedHistory []
      [{ id := "m1".toList, chat_id := "B".toList, project_id := "P".toList,
         sender := "user".toList, text := "t".toList }]
      = [{ id := "m1".toList, chat_id := "B".toList,
           project_id := "P".toList, sender := "user".toList,
           text := "t".toList }] ∧
    mergeFetchedHistory ("A".toList) []
      [{ id := "m1".toList, chat_id := "B".toList, project_id := "P".toList,
         sender := "user".toList, text := "t".toList }]
      ≠ specMergeFetchedHistory []
      [{ id := "m1".toList, chat_id := "B".toList, project_id := "P".toList,
         sender := "user".toList, text := "t".toList }] := by
  decide

/-- Claim C8 (amended): on every background history refetch, the resulting
view is the fetched persisted history followed by exactly those previously
held records that belong to the fetched conversation AND whose id has no
counterpart in the fetched history (concatenation, history first, pending
after); pending optimistic records of the fetched conversation are never
erased, while previously held records of other conversations are dropped. -/
theorem C8_amended (chatId : Str) (history prev : List Message) :
    mergeFetchedHistory chatId history prev
      = history ++ prev.filter (fun p =>
          p.chat_id = chatId ∧ ¬ history.any (fun h => h.id == p.id)) := by
  simp only [mergeFetchedHistory]
  split
  · rfl
  · rename_i hlen
    have h0 : (prev.filter (fun p =>
        p.chat_id = chatId ∧ ¬ history.any (fun h => h.id == p.id))) = [] :=
      List.length_eq_zero.mp (by omega)
    rw [h0, List.append_nil]

end Bubble
